import Mathlib

/-!
Verification of a small HTTP volume/mute bridge (file homebridge/pactl-http.py).

The program exposes a host audio mixer's volume and mute state over HTTP.
This development is a shallow embedding of its request-handling pipeline:

* the parse of the external mixer utility's textual status output
  (regex search for a slash, optional whitespace, digits, percent token;
  case-insensitive substring test for the token yes),
* the clamping applied by set_volume,
* Python's int() conversion of a path parameter (ASCII fragment),
* the route dispatch of Handler.handle_request, including trailing-slash
  stripping and final-segment parameter extraction,
* and the error surface: subprocess failures and parse failures become
  HTTP 500 responses, unmatched routes become HTTP 404.

Subprocess interaction is modelled by an environment that fixes, per request,
the outcome of each possible external invocation; the handler additionally
returns the list of external commands it issued, in order.
-/

/-- Character strings, modelled as lists of characters. -/
abbrev Str : Type := List Char

/-- ASCII whitespace: the characters matched by the regex class backslash-s
and stripped by Python's int() (space, tab, newline, carriage return,
vertical tab, form feed). -/
def isWs (c : Char) : Bool :=
  c == ' ' || c == '\t' || c == '\n' || c == '\r' || c == '\x0b' || c == '\x0c'

/-- Numeric value of a decimal digit character. -/
def dval (c : Char) : Nat := c.toNat - 48

/-- Value of a run of decimal digit characters, most significant first:
what Python's int does to the digits captured by the regexp group. -/
def digitsToNat (ds : Str) : Nat := List.foldl (fun a c => 10 * a + dval c) 0 ds

/-- One attempt of the regex slash, whitespace-run, digit-run, percent at the
head of the text: succeeds exactly when the text begins with a slash followed
by optional whitespace and a nonempty digit run terminated by a percent sign,
returning the numeric value of the digit run. -/
def tryMatch (l : Str) : Option Nat :=
  match l with
  | [] => none
  | c :: rest =>
    if c = '/' then
      let r1 := rest.dropWhile isWs
      let ds := r1.takeWhile Char.isDigit
      if ds ≠ [] ∧ (r1.dropWhile Char.isDigit).head? = some '%' then
        some (digitsToNat ds)
      else none
    else none

/-- re.search of the volume regex: try the match at each position from the
left, returning the first success. -/
def searchVolume : Str → Option Nat
  | [] => none
  | c :: cs =>
    match tryMatch (c :: cs) with
    | some n => some n
    | none => searchVolume cs

/-- Does the second list begin with the first (Python str.startswith)? -/
def startsWith : Str → Str → Bool
  | [], _ => true
  | _ :: _, [] => false
  | a :: as, b :: bs => a == b && startsWith as bs

/-- Python substring membership: the needle occurs contiguously in the hay. -/
def containsSub (needle : Str) : Str → Bool
  | [] => needle.isEmpty
  | c :: cs => startsWith needle (c :: cs) || containsSub needle cs

/-- Python str.lower on the ASCII range. -/
def lowerStr (cs : Str) : Str := cs.map Char.toLower

/-- The literal token searched for by get_mute. -/
def yesTok : Str := "yes".data

/-- Pure core of get_mute: the token yes occurs in the lowercased text. -/
def muteOf (out : Str) : Bool := containsSub yesTok (lowerStr out)

/-- Python path.rstrip applied to the slash character: drop every trailing
slash. -/
def rstripSlash (cs : Str) : Str := (cs.reverse.dropWhile (fun c => c == '/')).reverse

/-- Python path.split on slash, last element: everything after the final
slash (the whole string when it has no slash). -/
def lastSeg (cs : Str) : Str := (cs.reverse.takeWhile (fun c => c != '/')).reverse

/-- Helper for pyInt: consume decimal digits optionally separated by single
underscores, accumulating the value (Python int literal body). -/
def pyDigsLoop : Nat → Str → Option Nat
  | acc, [] => some acc
  | _, ['_'] => none
  | acc, '_' :: c :: cs =>
    if Char.isDigit c then pyDigsLoop (10 * acc + dval c) cs else none
  | acc, c :: cs =>
    if Char.isDigit c then pyDigsLoop (10 * acc + dval c) cs else none

/-- Nonempty digit run with optional single underscores between digits. -/
def pyDigs : Str → Option Nat
  | [] => none
  | c :: cs => if Char.isDigit c then pyDigsLoop (dval c) cs else none

/-- Strip leading and trailing ASCII whitespace. -/
def stripWs (cs : Str) : Str := ((cs.dropWhile isWs).reverse.dropWhile isWs).reverse

/-- Python's int() on an ASCII string: optional surrounding whitespace,
optional sign, nonempty digit run with optional single underscores between
digits; none models the ValueError raised on any other shape. -/
def pyInt (cs : Str) : Option Int :=
  match stripWs cs with
  | '+' :: rest => (pyDigs rest).map (fun n => (n : Int))
  | '-' :: rest => (pyDigs rest).map (fun n => -(n : Int))
  | rest => (pyDigs rest).map (fun n => (n : Int))

/-- The clamping performed by set_volume: max of 0 and min of 100 and pct. -/
def clampPct (pct : Int) : Int := max 0 (min 100 pct)

/-- The literal token 1 of the mute route. -/
def oneTok : Str := "1".data

/-- The literal token true of the mute route. -/
def trueTok : Str := "true".data

/-- The mute route's membership test: val in 1, true, yes (case-sensitive). -/
def muteToken (val : Str) : Bool := val == oneTok || val == trueTok || val == yesTok

/-- A failure surfaced by the request handler: a subprocess failure
(non-zero exit or timeout, carrying the message), an unparsable volume
status text, or a path parameter rejected by int(). -/
inductive Err where
  | exec (msg : Str)
  | parseVol (out : Str)
  | badInt (s : Str)
deriving DecidableEq

/-- An external pactl invocation, recorded with the argument it was given. -/
inductive Cmd where
  | getVol
  | getMute
  | setVol (pct : Int)
  | setMute (b : Bool)
deriving DecidableEq

/-- The JSON body of a response: one of the success payloads, an error
payload carrying a failure, or the fixed not-found error payload. -/
inductive Body where
  | volMute (v : Nat) (m : Bool)
  | muteOnly (m : Bool)
  | volOnly (v : Int)
  | errMsg (e : Err)
  | notFound
deriving DecidableEq

/-- An HTTP response: status code and JSON body. -/
structure Resp where
  code : Nat
  body : Body
deriving DecidableEq

/-- Per-request outcome of each possible external invocation: the stdout
text (or failure message) of the two queries, and the result of the two
mutations as a function of their argument. -/
structure Env where
  volText : Except Str Str
  muteText : Except Str Str
  setVolRes : Int → Except Str Unit
  setMuteRes : Bool → Except Str Unit

/-- An environment in which every invocation succeeds, with the two given
status texts. -/
def mkEnv (vt mt : Except Str Str) : Env :=
  ⟨vt, mt, fun _ => Except.ok (), fun _ => Except.ok ()⟩

/-- get_volume: invoke pactl get-sink-volume, search the output for the
volume regex, int the captured digits; RuntimeError when nothing matches.
The second component records the subprocess invocation. -/
def get_volume (e : Env) : Except Err Nat × List Cmd :=
  ((match e.volText with
    | Except.error m => Except.error (Err.exec m)
    | Except.ok out =>
      match searchVolume out with
      | some n => Except.ok n
      | none => Except.error (Err.parseVol out)),
   [Cmd.getVol])

/-- get_mute: invoke pactl get-sink-mute and test for yes in the lowercased
output. -/
def get_mute (e : Env) : Except Err Bool × List Cmd :=
  ((match e.muteText with
    | Except.error m => Except.error (Err.exec m)
    | Except.ok out => Except.ok (muteOf out)),
   [Cmd.getMute])

/-- set_volume: clamp the request into 0..100, invoke pactl set-sink-volume
with the clamped percentage, return the clamped value. -/
def set_volume (e : Env) (pct : Int) : Except Err Int × List Cmd :=
  ((match e.setVolRes (clampPct pct) with
    | Except.error m => Except.error (Err.exec m)
    | Except.ok _ => Except.ok (clampPct pct)),
   [Cmd.setVol (clampPct pct)])

/-- set_mute: invoke pactl set-sink-mute with the boolean argument. -/
def set_mute (e : Env) (b : Bool) : Except Err Unit × List Cmd :=
  ((match e.setMuteRes b with
    | Except.error m => Except.error (Err.exec m)
    | Except.ok _ => Except.ok ()),
   [Cmd.setMute b])

/-- The exact route for reading volume and mute. -/
def routeVol : Str := "/api/volume".data

/-- The exact route for reading mute. -/
def routeMute : Str := "/api/mute".data

/-- The set-volume route's leading segment test string. -/
def routeVolP : Str := "/api/volume/".data

/-- The set-mute route's leading segment test string. -/
def routeMuteP : Str := "/api/mute/".data

/-- Handler.handle_request: strip trailing slashes, dispatch on the path in
the source's order, run the selected operation, and encode the outcome as a
status code and JSON body; any failure becomes a 500 with an error payload,
an unmatched path becomes a 404. The command trace of the invoked
operations is returned alongside. -/
def handle_request (e : Env) (raw : Str) : Resp × List Cmd :=
  if rstripSlash raw = routeVol then
    match get_volume e with
    | (Except.error er, c1) => (⟨500, Body.errMsg er⟩, c1)
    | (Except.ok v, c1) =>
      match get_mute e with
      | (Except.error er, c2) => (⟨500, Body.errMsg er⟩, c1 ++ c2)
      | (Except.ok m, c2) => (⟨200, Body.volMute v m⟩, c1 ++ c2)
  else if rstripSlash raw = routeMute then
    match get_mute e with
    | (Except.error er, c2) => (⟨500, Body.errMsg er⟩, c2)
    | (Except.ok m, c2) => (⟨200, Body.muteOnly m⟩, c2)
  else if startsWith routeVolP (rstripSlash raw) = true then
    match pyInt (lastSeg (rstripSlash raw)) with
    | none => (⟨500, Body.errMsg (Err.badInt (lastSeg (rstripSlash raw)))⟩, [])
    | some pct =>
      match set_volume e pct with
      | (Except.error er, c) => (⟨500, Body.errMsg er⟩, c)
      | (Except.ok v, c) => (⟨200, Body.volOnly v⟩, c)
  else if startsWith routeMuteP (rstripSlash raw) = true then
    match set_mute e (muteToken (lastSeg (rstripSlash raw))) with
    | (Except.error er, c) => (⟨500, Body.errMsg er⟩, c)
    | (Except.ok _, c) => (⟨200, Body.muteOnly (muteToken (lastSeg (rstripSlash raw)))⟩, c)
  else (⟨404, Body.notFound⟩, [])

/-- Decidable equality for Except, needed to evaluate adapter results. -/
instance {α β : Type} [DecidableEq α] [DecidableEq β] : DecidableEq (Except α β)
  | Except.ok a, Except.ok b =>
    if h : a = b then isTrue (h ▸ rfl) else isFalse (fun hc => h (Except.ok.inj hc))
  | Except.ok _, Except.error _ => isFalse (fun hc => Except.noConfusion hc)
  | Except.error _, Except.ok _ => isFalse (fun hc => Except.noConfusion hc)
  | Except.error a, Except.error b =>
    if h : a = b then isTrue (h ▸ rfl) else isFalse (fun hc => h (Except.error.inj hc))

/-- takeWhile of a run of satisfying elements followed by a failing element
is exactly the run. -/
theorem takeWhile_all_app (p : Char → Bool) (xs : Str) (y : Char) (ys : Str)
    (hx : ∀ c ∈ xs, p c = true) (hy : p y = false) :
    (xs ++ y :: ys).takeWhile p = xs := by
  induction xs with
  | nil => simp [List.takeWhile_cons, hy]
  | cons a as ih =>
    have ha : p a = true := hx a (by simp)
    simp only [List.cons_append, List.takeWhile_cons, ha, if_true]
    rw [ih (fun c hc => hx c (by simp [hc]))]

/-- dropWhile of a run of satisfying elements followed by a failing element
is the tail from the failing element on. -/
theorem dropWhile_all_app (p : Char → Bool) (xs : Str) (y : Char) (ys : Str)
    (hx : ∀ c ∈ xs, p c = true) (hy : p y = false) :
    (xs ++ y :: ys).dropWhile p = y :: ys := by
  induction xs with
  | nil => simp [List.dropWhile_cons, hy]
  | cons a as ih =>
    have ha : p a = true := hx a (by simp)
    simp only [List.cons_append, List.dropWhile_cons, ha, if_true]
    exact ih (fun c hc => hx c (by simp [hc]))

/-- Every element of a takeWhile satisfies the predicate. -/
theorem mem_takeWhile_prop (p : Char → Bool) :
    ∀ (l : Str) (c : Char), c ∈ l.takeWhile p → p c = true := by
  intro l
  induction l with
  | nil => simp
  | cons a as ih =>
    intro c hc
    rw [List.takeWhile_cons] at hc
    by_cases ha : p a
    · simp only [ha, if_true, List.mem_cons] at hc
      rcases hc with h | h
      · exact h ▸ ha
      · exact ih c h
    · simp [ha] at hc

/-- startsWith is the prefix relation: some tail extends the needle to the
hay. -/
theorem startsWith_iff (n h : Str) : startsWith n h = true ↔ ∃ t, n ++ t = h := by
  induction n generalizing h with
  | nil => simp [startsWith]
  | cons a as ih =>
    cases h with
    | nil => simp [startsWith]
    | cons b bs =>
      simp only [startsWith, Bool.and_eq_true, beq_iff_eq, ih, List.cons_append,
        List.cons.injEq]
      constructor
      · rintro ⟨rfl, t, rfl⟩
        exact ⟨t, rfl, rfl⟩
      · rintro ⟨t, rfl, rfl⟩
        exact ⟨rfl, t, rfl⟩

/-- startsWith holds of any extension of the needle itself. -/
theorem startsWith_self_app (n t : Str) : startsWith n (n ++ t) = true := by
  rw [startsWith_iff]
  exact ⟨t, rfl⟩

/-- The needle occurs contiguously inside the hay. -/
def OccursIn (needle hay : Str) : Prop := ∃ p s, hay = p ++ needle ++ s

/-- containsSub is the contiguous-occurrence relation (Python in). -/
theorem containsSub_iff (n h : Str) : containsSub n h = true ↔ OccursIn n h := by
  induction h with
  | nil =>
    simp only [containsSub, List.isEmpty_iff, OccursIn]
    constructor
    · rintro rfl
      exact ⟨[], [], rfl⟩
    · rintro ⟨p, s, hps⟩
      rcases List.append_eq_nil.mp (List.append_eq_nil.mp hps.symm).1 with ⟨_, h2⟩
      exact h2
  | cons c cs ih =>
    simp only [containsSub, Bool.or_eq_true, startsWith_iff, ih]
    constructor
    · rintro (⟨t, ht⟩ | ⟨p, s, hps⟩)
      · exact ⟨[], t, ht.symm⟩
      · exact ⟨c :: p, s, by simp [hps]⟩
    · rintro ⟨p, s, hps⟩
      cases p with
      | nil => exact Or.inl ⟨s, by simpa using hps.symm⟩
      | cons a p' =>
        refine Or.inr ⟨p', s, ?_⟩
        have hx : c :: cs = a :: (p' ++ n ++ s) := by simpa using hps
        injection hx

/-- Specification of one position of the volume regex: the text decomposes
as a slash, a whitespace run, a nonempty digit run, and a percent sign, and
the value is the numeric value of the digit run. -/
def TokenHead (l : Str) (n : Nat) : Prop :=
  ∃ ws ds rest, (∀ c ∈ ws, isWs c = true) ∧ (∀ c ∈ ds, Char.isDigit c = true) ∧
    ds ≠ [] ∧ l = '/' :: (ws ++ (ds ++ '%' :: rest)) ∧ n = digitsToNat ds

/-- The regex's token occurs somewhere in the text. -/
def HasToken (cs : Str) : Prop := ∃ i n, TokenHead (cs.drop i) n

/-- A digit character is not whitespace. -/
theorem dig_not_ws (c : Char) (h : Char.isDigit c = true) : isWs c = false := by
  simp only [Char.isDigit, Bool.and_eq_true, decide_eq_true_eq] at h
  simp only [isWs, Bool.or_eq_false_iff, beq_eq_false_iff_ne, ne_eq]
  refine ⟨⟨⟨⟨⟨?_, ?_⟩, ?_⟩, ?_⟩, ?_⟩, ?_⟩ <;> rintro rfl <;> revert h <;> decide

/-- The percent sign is not a digit. -/
theorem pct_not_dig : Char.isDigit '%' = false := by decide

/-- The single-position match succeeds with value n exactly when the text
decomposes per TokenHead. -/
theorem tryMatch_iff (l : Str) (n : Nat) : tryMatch l = some n ↔ TokenHead l n := by
  constructor
  · intro h
    cases l with
    | nil => simp [tryMatch] at h
    | cons c rest =>
      simp only [tryMatch] at h
      split_ifs at h with hc hcond
      · obtain ⟨hds, hpc⟩ := hcond
        subst hc
        rcases hq : (rest.dropWhile isWs).dropWhile Char.isDigit with _ | ⟨x, xs⟩
        · rw [hq] at hpc
          simp at hpc
        · rw [hq] at hpc
          simp only [List.head?_cons, Option.some.injEq] at hpc
          subst hpc
          refine ⟨rest.takeWhile isWs, (rest.dropWhile isWs).takeWhile Char.isDigit, xs,
            ?_, ?_, hds, ?_, (Option.some.inj h).symm⟩
          · exact fun c hc => mem_takeWhile_prop isWs rest c hc
          · exact fun c hc => mem_takeWhile_prop Char.isDigit (rest.dropWhile isWs) c hc
          · have h1 : rest.takeWhile isWs ++ rest.dropWhile isWs = rest :=
              List.takeWhile_append_dropWhile isWs rest
            have h2 : (rest.dropWhile isWs).takeWhile Char.isDigit ++
                ((rest.dropWhile isWs).dropWhile Char.isDigit) = rest.dropWhile isWs :=
              List.takeWhile_append_dropWhile Char.isDigit (rest.dropWhile isWs)
            rw [hq] at h2
            rw [h2, h1]
  · rintro ⟨ws, ds, rest', hws, hds, hne, rfl, rfl⟩
    obtain ⟨d, ds', rfl⟩ : ∃ d ds', ds = d :: ds' := by
      cases ds with
      | nil => exact absurd rfl hne
      | cons d ds' => exact ⟨d, ds', rfl⟩
    simp only [tryMatch]
    have h1 : (ws ++ (d :: ds' ++ '%' :: rest')).dropWhile isWs
        = d :: ds' ++ '%' :: rest' := by
      have := dropWhile_all_app isWs ws d (ds' ++ '%' :: rest') hws
        (dig_not_ws d (hds d (by simp)))
      simpa using this
    have h2 : (d :: ds' ++ '%' :: rest').takeWhile Char.isDigit = d :: ds' :=
      takeWhile_all_app Char.isDigit (d :: ds') '%' rest' hds pct_not_dig
    have h3 : (d :: ds' ++ '%' :: rest').dropWhile Char.isDigit = '%' :: rest' :=
      dropWhile_all_app Char.isDigit (d :: ds') '%' rest' hds pct_not_dig
    rw [h1, h2, h3]
    simp

/-- TokenHead never holds of the empty text. -/
theorem tokenHead_nil (n : Nat) : ¬ TokenHead [] n := by
  rintro ⟨ws, ds, rest, _, _, _, h, _⟩
  simp at h

/-- The left-to-right regex search fails exactly when no position of the
text carries a token. -/
theorem searchVolume_none_iff (cs : Str) :
    searchVolume cs = none ↔ ∀ i n, ¬ TokenHead (cs.drop i) n := by
  induction cs with
  | nil =>
    constructor
    · intro _ i n h
      rw [List.drop_nil] at h
      exact tokenHead_nil n h
    · intro _
      rfl
  | cons c cs ih =>
    simp only [searchVolume]
    rcases ht : tryMatch (c :: cs) with _ | m
    · rw [ih]
      constructor
      · intro hall i n hth
        cases i with
        | zero =>
          have hs := (tryMatch_iff (c :: cs) n).mpr (by simpa using hth)
          rw [ht] at hs
          exact Option.noConfusion hs
        | succ i => exact hall i n (by simpa using hth)
      · intro hall i n hth
        exact hall (i + 1) n (by simpa using hth)
    · constructor
      · intro hcon
        exact Option.noConfusion hcon
      · intro hall
        exact absurd ((tryMatch_iff (c :: cs) m).mp ht) (by simpa using hall 0 m)

/-- When the left-to-right regex search succeeds, its value is the token of
the first position carrying one: every strictly earlier position carries no
token. -/
theorem searchVolume_some_first (cs : Str) (n : Nat) (h : searchVolume cs = some n) :
    ∃ i, TokenHead (cs.drop i) n ∧ ∀ j, j < i → ∀ m, ¬ TokenHead (cs.drop j) m := by
  induction cs with
  | nil => simp [searchVolume] at h
  | cons c cs ih =>
    simp only [searchVolume] at h
    rcases ht : tryMatch (c :: cs) with _ | m
    · simp only [ht] at h
      obtain ⟨i, hi, hmin⟩ := ih h
      refine ⟨i + 1, by simpa using hi, ?_⟩
      intro j hj m hth
      cases j with
      | zero =>
        have hs := (tryMatch_iff (c :: cs) m).mpr (by simpa using hth)
        rw [ht] at hs
        exact Option.noConfusion hs
      | succ j => exact hmin j (by omega) m (by simpa using hth)
    · simp only [ht] at h
      refine ⟨0, ?_, ?_⟩
      · have hth := (tryMatch_iff (c :: cs) m).mp ht
        rw [Option.some.inj h] at hth
        simpa using hth
      · intro j hj m' hth
        exact absurd hj (Nat.not_lt_zero j)

/-- A Bool known to be false is not true. -/
theorem not_true_of_eq_false {b : Bool} (h : b = false) : ¬(b = true) := by
  simp [h]

/-- A path extending the set-volume segment is never the exact volume route. -/
theorem volP_ne_routeVol (rest : Str) : routeVolP ++ rest ≠ routeVol := by
  intro h
  have hl := congrArg (List.take 12) h
  rw [show List.take 12 (routeVolP ++ rest) = routeVolP from rfl] at hl
  exact absurd hl (by decide)

/-- A path extending the set-volume segment is never the exact mute route. -/
theorem volP_ne_routeMute (rest : Str) : routeVolP ++ rest ≠ routeMute := by
  intro h
  have hl := congrArg (List.take 12) h
  rw [show List.take 12 (routeVolP ++ rest) = routeVolP from rfl] at hl
  exact absurd hl (by decide)

/-- A path extending the set-mute segment is never the exact volume route. -/
theorem muteP_ne_routeVol (rest : Str) : routeMuteP ++ rest ≠ routeVol := by
  intro h
  have hl := congrArg (List.take 10) h
  rw [show List.take 10 (routeMuteP ++ rest) = routeMuteP from rfl] at hl
  exact absurd hl (by decide)

/-- A path extending the set-mute segment is never the exact mute route. -/
theorem muteP_ne_routeMute (rest : Str) : routeMuteP ++ rest ≠ routeMute := by
  intro h
  have hl := congrArg (List.take 10) h
  rw [show List.take 10 (routeMuteP ++ rest) = routeMuteP from rfl] at hl
  exact absurd hl (by decide)

/-- A path extending the set-mute segment never passes the set-volume
segment test. -/
theorem volP_not_starts_muteP (rest : Str) :
    startsWith routeVolP (routeMuteP ++ rest) = false := rfl

/-- The two exact routes differ. -/
theorem routeMute_ne_routeVol : routeMute ≠ routeVol := by decide

/-- Dispatch on the exact volume route: both queries run in order, the
first failure wins, and the trace holds the issued invocations. -/
theorem handle_vol_exact (e : Env) (raw : Str) (hp : rstripSlash raw = routeVol) :
    handle_request e raw =
      (match e.volText with
       | Except.error m => (⟨500, Body.errMsg (Err.exec m)⟩, [Cmd.getVol])
       | Except.ok out =>
         match searchVolume out with
         | none => (⟨500, Body.errMsg (Err.parseVol out)⟩, [Cmd.getVol])
         | some v =>
           match e.muteText with
           | Except.error m => (⟨500, Body.errMsg (Err.exec m)⟩, [Cmd.getVol, Cmd.getMute])
           | Except.ok mo => (⟨200, Body.volMute v (muteOf mo)⟩, [Cmd.getVol, Cmd.getMute])) := by
  rcases hv : e.volText with m | out
  · simp only [handle_request, hp, get_volume, get_mute, hv]
    rw [if_true]
  · rcases hs : searchVolume out with _ | v
    · simp only [handle_request, hp, get_volume, get_mute, hv, hs]
      rw [if_true]
    · rcases hm : e.muteText with m2 | mo
      · simp only [handle_request, hp, get_volume, get_mute, hv, hs, hm]
        rw [if_true]
        rfl
      · simp only [handle_request, hp, get_volume, get_mute, hv, hs, hm]
        rw [if_true]
        rfl

/-- Dispatch on the exact mute route. -/
theorem handle_mute_exact (e : Env) (raw : Str) (hp : rstripSlash raw = routeMute) :
    handle_request e raw =
      (match e.muteText with
       | Except.error m => (⟨500, Body.errMsg (Err.exec m)⟩, [Cmd.getMute])
       | Except.ok mo => (⟨200, Body.muteOnly (muteOf mo)⟩, [Cmd.getMute])) := by
  rcases hm : e.muteText with m | mo
  · simp only [handle_request, hp, get_mute, hm]
    rw [if_neg routeMute_ne_routeVol, if_true]
  · simp only [handle_request, hp, get_mute, hm]
    rw [if_neg routeMute_ne_routeVol, if_true]

/-- Dispatch on the set-volume route: the parameter is the final segment;
a failed int() yields the 500 without any invocation, otherwise the
set-volume invocation is issued with the clamped value. -/
theorem handle_volP (e : Env) (raw rest : Str) (hp : rstripSlash raw = routeVolP ++ rest) :
    handle_request e raw =
      (match pyInt (lastSeg (routeVolP ++ rest)) with
       | none => (⟨500, Body.errMsg (Err.badInt (lastSeg (routeVolP ++ rest)))⟩, [])
       | some pct =>
         match e.setVolRes (clampPct pct) with
         | Except.error m => (⟨500, Body.errMsg (Err.exec m)⟩, [Cmd.setVol (clampPct pct)])
         | Except.ok _ => (⟨200, Body.volOnly (clampPct pct)⟩, [Cmd.setVol (clampPct pct)])) := by
  rcases hpi : pyInt (lastSeg (routeVolP ++ rest)) with _ | pct
  · simp only [handle_request, hp, set_volume, hpi]
    rw [if_neg (volP_ne_routeVol rest), if_neg (volP_ne_routeMute rest),
      if_pos (startsWith_self_app routeVolP rest)]
  · rcases hsv : e.setVolRes (clampPct pct) with m | u
    · simp only [handle_request, hp, set_volume, hpi, hsv]
      rw [if_neg (volP_ne_routeVol rest), if_neg (volP_ne_routeMute rest),
        if_pos (startsWith_self_app routeVolP rest)]
    · simp only [handle_request, hp, set_volume, hpi, hsv]
      rw [if_neg (volP_ne_routeVol rest), if_neg (volP_ne_routeMute rest),
        if_pos (startsWith_self_app routeVolP rest)]

/-- Dispatch on the set-mute route: the parameter is the final segment and
the set-mute invocation is issued with the token test's result. -/
theorem handle_muteP (e : Env) (raw rest : Str) (hp : rstripSlash raw = routeMuteP ++ rest) :
    handle_request e raw =
      (match e.setMuteRes (muteToken (lastSeg (routeMuteP ++ rest))) with
       | Except.error m =>
         (⟨500, Body.errMsg (Err.exec m)⟩, [Cmd.setMute (muteToken (lastSeg (routeMuteP ++ rest)))])
       | Except.ok _ =>
         (⟨200, Body.muteOnly (muteToken (lastSeg (routeMuteP ++ rest)))⟩,
          [Cmd.setMute (muteToken (lastSeg (routeMuteP ++ rest)))])) := by
  rcases hsm : e.setMuteRes (muteToken (lastSeg (routeMuteP ++ rest))) with m | u
  · simp only [handle_request, hp, set_mute, hsm]
    rw [if_neg (muteP_ne_routeVol rest), if_neg (muteP_ne_routeMute rest),
      if_neg (not_true_of_eq_false (volP_not_starts_muteP rest)),
      if_pos (startsWith_self_app routeMuteP rest)]
  · simp only [handle_request, hp, set_mute, hsm]
    rw [if_neg (muteP_ne_routeVol rest), if_neg (muteP_ne_routeMute rest),
      if_neg (not_true_of_eq_false (volP_not_starts_muteP rest)),
      if_pos (startsWith_self_app routeMuteP rest)]

/-- Dispatch on no route: the 404 response, no invocation issued. -/
theorem handle_nf (e : Env) (raw : Str)
    (h1 : rstripSlash raw ≠ routeVol) (h2 : rstripSlash raw ≠ routeMute)
    (h3 : startsWith routeVolP (rstripSlash raw) = false)
    (h4 : startsWith routeMuteP (rstripSlash raw) = false) :
    handle_request e raw = (⟨404, Body.notFound⟩, []) := by
  simp only [handle_request]
  rw [if_neg h1, if_neg h2, if_neg (not_true_of_eq_false h3),
    if_neg (not_true_of_eq_false h4)]

/-- The clamp written as a case split. -/
theorem clampPct_eq (v : Int) :
    clampPct v = if v < 0 then 0 else if 100 < v then 100 else v := by
  simp only [clampPct, max_def, min_def]
  split_ifs <;> omega

/-- The clamp lands in the valid range. -/
theorem clampPct_mem (v : Int) : 0 ≤ clampPct v ∧ clampPct v ≤ 100 := by
  rw [clampPct_eq]
  split_ifs <;> omega

/-- The clamp is the identity on the valid range. -/
theorem clampPct_id (v : Int) (h0 : 0 ≤ v) (h1 : v ≤ 100) : clampPct v = v := by
  rw [clampPct_eq]
  split_ifs <;> omega

/-- The character of a decimal digit value. -/
def digitChar : Nat → Char
  | 0 => '0'
  | 1 => '1'
  | 2 => '2'
  | 3 => '3'
  | 4 => '4'
  | 5 => '5'
  | 6 => '6'
  | 7 => '7'
  | 8 => '8'
  | _ => '9'

/-- Decimal rendering of a value below 1000 (covers every percentage the
program can store, which is clamped into 0..100 before being applied). -/
def natToDigits (n : Nat) : Str :=
  if n < 10 then [digitChar n]
  else if n < 100 then [digitChar (n / 10), digitChar (n % 10)]
  else [digitChar (n / 100), digitChar (n / 10 % 10), digitChar (n % 10)]

/-- Modelled from the spec: the external mixer utility (an external
collaborator, not part of this repository) holds a volume percentage and a
mute flag; this is the state the spec's external-interface contract says a
set-volume-by-sink invocation stores and a query-volume-by-sink invocation
reports. -/
structure Mixer where
  vol : Nat
  mute : Bool
deriving DecidableEq

/-- Modelled from the spec: effect of one external invocation on the
mixer; a faithful mixer stores the percentage given to set-volume-by-sink
and the flag given to set-mute-by-sink, and queries leave it unchanged. -/
def mixerStep (s : Mixer) : Cmd → Mixer
  | Cmd.setVol p => { s with vol := p.toNat }
  | Cmd.setMute b => { s with mute := b }
  | _ => s

/-- Fragment of a query-volume-by-sink status line before the percentage. -/
def volStatusPre : Str := "Volume: front-left: 32768 / ".data

/-- Fragment of a query-volume-by-sink status line after the percentage. -/
def volStatusPost : Str := "% / -18.06 dB".data

/-- Modelled from the spec: the status text a faithful mixer reports,
containing the stored percentage as its slash-digits-percent token. -/
def volStatusText (s : Mixer) : Str := volStatusPre ++ (natToDigits s.vol ++ volStatusPost)

/-- The program's volume parse recovers every stored percentage up to 100
from the faithful mixer's status text. -/
theorem render_parse :
    ∀ n, n < 101 → searchVolume (volStatusPre ++ (natToDigits n ++ volStatusPost)) = some n := by
  decide

/-- The spec's worked example of a mixer status text, reporting 50 percent. -/
def exVolOut : Str := "Volume: aux0: 32768 / 50% / ...".data

/-- A status text reporting an over-amplified 150 percent volume. -/
def overOut : Str := "Volume: front-left: 98304 / 150% / 3.52 dB".data

/-- A mute status text answering yes (upper case). -/
def exMuteOut : Str := "Mute: YES".data

/-- A mute status text answering no. -/
def noOut : Str := "Mute: no".data

/-- A failure message of a timed-out invocation. -/
def msgTimeout : Str := "Command timed out after 5 seconds".data

/-- Environment whose volume query reports the over-amplified text. -/
def envC1 : Env := mkEnv (Except.ok overOut) (Except.ok noOut)

/-- Environment whose volume query reports the spec's worked example. -/
def envC3 : Env := mkEnv (Except.ok exVolOut) (Except.ok noOut)

/-- Environment whose mute query answers yes in upper case. -/
def envC4 : Env := mkEnv (Except.ok exVolOut) (Except.ok exMuteOut)

/-- Environment in which every invocation succeeds with empty output. -/
def envOkEmpty : Env := mkEnv (Except.ok []) (Except.ok [])

/-- Environment whose volume query fails with a timeout message. -/
def envFail : Env := mkEnv (Except.error msgTimeout) (Except.ok noOut)

/-- A status text carrying no slash-digits-percent token. -/
def badOut : Str := "Volume: muted".data

/-- Environment whose volume query reports the unparsable text. -/
def envParse : Env := mkEnv (Except.ok badOut) (Except.ok noOut)

/-- Request path setting mute with the unrecognized token maybe. -/
def rawC5 : Str := "/api/mute/maybe".data

/-- Final segment of rawC5. -/
def restC5 : Str := "maybe".data

/-- Request path with an extra segment before the volume value. -/
def rawC6 : Str := "/api/volume/extra/50".data

/-- Tail of rawC6 after the set-volume segment. -/
def restC6 : Str := "extra/50".data

/-- The exact volume route as a request path. -/
def rawC7 : Str := "/api/volume".data

/-- A path matching no route. -/
def rawC9 : Str := "/unknown/path".data

/-- Request path whose volume value is not an integer. -/
def rawC10 : Str := "/api/volume/loud".data

/-- Final segment of rawC10. -/
def restC10 : Str := "loud".data

/-- Claim C1, evaluation of the code at the failing input: on a status text
reporting 150 percent, get_volume succeeds with the value 150, which
exceeds 100. The parse never clamps, so the claimed 0..100 upper bound
(also the function's own docstring, Return integer 0-100) fails. -/
theorem C1_overrange :
    get_volume envC1 = (Except.ok 150, [Cmd.getVol]) ∧ ¬(150 ≤ 100) :=
  ⟨by decide, by decide⟩

/-- Claim C2: set_volume clamps every integer into 0..100 (0 below 0, 100
above 100, identity inside), issues the set-volume invocation carrying the
clamped value, and returns the clamped value; it never fails on
out-of-range input when the subprocess succeeds. -/
theorem C2_clamp (e : Env) (v : Int) (h : e.setVolRes (clampPct v) = Except.ok ()) :
    set_volume e v = (Except.ok (clampPct v), [Cmd.setVol (clampPct v)])
    ∧ clampPct v = (if v < 0 then 0 else if 100 < v then 100 else v)
    ∧ 0 ≤ clampPct v ∧ clampPct v ≤ 100 := by
  refine ⟨?_, clampPct_eq v, (clampPct_mem v).1, (clampPct_mem v).2⟩
  simp only [set_volume, h]

/-- Witness for C2 at the out-of-range request 150: the clamp applies 100. -/
theorem C2_witness :
    (set_volume envOkEmpty 150 = (Except.ok (clampPct 150), [Cmd.setVol (clampPct 150)])
      ∧ clampPct 150 = (if (150 : Int) < 0 then 0 else if 100 < (150 : Int) then 100 else 150)
      ∧ 0 ≤ clampPct 150 ∧ clampPct 150 ≤ 100)
    ∧ clampPct 150 = 100 :=
  ⟨C2_clamp envOkEmpty 150 rfl, by decide⟩

/-- Claim C3: with a successfully captured status text, get_volume fails
with the ParseError exactly when no position of the text carries a
slash-whitespace-digits-percent token, and when it succeeds its value is
the token of the first position carrying one. -/
theorem C3_firstToken (e : Env) (out : Str) (h : e.volText = Except.ok out) :
    (get_volume e = (Except.error (Err.parseVol out), [Cmd.getVol])
        ↔ ∀ i n, ¬ TokenHead (out.drop i) n)
    ∧ (∀ n, get_volume e = (Except.ok n, [Cmd.getVol]) →
        ∃ i, TokenHead (out.drop i) n ∧ ∀ j, j < i → ∀ m, ¬ TokenHead (out.drop j) m) := by
  constructor
  · rw [← searchVolume_none_iff]
    constructor
    · intro hg
      rcases hs : searchVolume out with _ | n
      · rfl
      · exfalso
        simp only [get_volume, h, hs] at hg
        simp at hg
    · intro hs
      simp only [get_volume, h, hs]
  · intro n hg
    rcases hs : searchVolume out with _ | m
    · simp only [get_volume, h, hs] at hg
      simp at hg
    · simp only [get_volume, h, hs] at hg
      have hmn : m = n := by
        have hfst := congrArg (fun x => x.1) hg
        simpa using hfst
      exact hmn ▸ searchVolume_some_first out m hs

/-- Witness for C3 at the spec's worked example, which parses to 50. -/
theorem C3_witness :
    ((get_volume envC3 = (Except.error (Err.parseVol exVolOut), [Cmd.getVol])
        ↔ ∀ i n, ¬ TokenHead (exVolOut.drop i) n)
      ∧ (∀ n, get_volume envC3 = (Except.ok n, [Cmd.getVol]) →
          ∃ i, TokenHead (exVolOut.drop i) n ∧ ∀ j, j < i → ∀ m, ¬ TokenHead (exVolOut.drop j) m))
    ∧ get_volume envC3 = (Except.ok 50, [Cmd.getVol]) :=
  ⟨C3_firstToken envC3 exVolOut rfl, by decide⟩

/-- Claim C4: with a successfully captured status text, get_mute returns
true exactly when the token yes occurs in the lowercased text (so the test
is case-insensitive), and false for any text without it, such as no. -/
theorem C4_yes (e : Env) (out : Str) (h : e.muteText = Except.ok out) :
    get_mute e = (Except.ok (muteOf out), [Cmd.getMute])
    ∧ (muteOf out = true ↔ OccursIn yesTok (lowerStr out)) := by
  refine ⟨?_, containsSub_iff yesTok (lowerStr out)⟩
  simp only [get_mute, h]

/-- Witness for C4: upper-case YES is detected, no is not. -/
theorem C4_witness :
    (get_mute envC4 = (Except.ok (muteOf exMuteOut), [Cmd.getMute])
      ∧ (muteOf exMuteOut = true ↔ OccursIn yesTok (lowerStr exMuteOut)))
    ∧ muteOf exMuteOut = true ∧ muteOf noOut = false :=
  ⟨C4_yes envC4 exMuteOut rfl, by decide, by decide⟩

/-- Claim C5: on every path whose trailing-slash-stripped form extends the
set-mute segment, the mute value applied and returned is the final
segment's membership in the case-sensitive tokens 1, true, yes, and the
response is the 200 mute payload carrying that boolean. -/
theorem C5_muteTokens (e : Env) (raw rest : Str)
    (hp : rstripSlash raw = routeMuteP ++ rest)
    (hm : ∀ b, e.setMuteRes b = Except.ok ()) :
    handle_request e raw
      = (⟨200, Body.muteOnly (muteToken (lastSeg (routeMuteP ++ rest)))⟩,
         [Cmd.setMute (muteToken (lastSeg (routeMuteP ++ rest)))])
    ∧ ∀ val : Str, muteToken val = true ↔ (val = oneTok ∨ val = trueTok ∨ val = yesTok) := by
  constructor
  · rw [handle_muteP e raw rest hp, hm (muteToken (lastSeg (routeMuteP ++ rest)))]
  · intro val
    simp [muteToken, or_assoc]

/-- Witness for C5 at the unrecognized token maybe: mute is set false. -/
theorem C5_witness :
    handle_request envOkEmpty rawC5 = (⟨200, Body.muteOnly false⟩, [Cmd.setMute false]) := by
  have h := (C5_muteTokens envOkEmpty rawC5 restC5 (by decide) (fun b => rfl)).1
  exact h.trans (by decide)

/-- Claim C6: on both parametrized routes, the parameter is the path's
final slash-delimited segment, however many segments precede it: the
volume route converts that segment with int() and applies the clamped
value, the mute route applies the token test of that segment. -/
theorem C6_lastSegment (e : Env) (raw rest : Str) :
    (∀ pv : Int, rstripSlash raw = routeVolP ++ rest →
      pyInt (lastSeg (routeVolP ++ rest)) = some pv →
      e.setVolRes (clampPct pv) = Except.ok () →
      handle_request e raw = (⟨200, Body.volOnly (clampPct pv)⟩, [Cmd.setVol (clampPct pv)]))
    ∧ (rstripSlash raw = routeMuteP ++ rest →
      (∀ b, e.setMuteRes b = Except.ok ()) →
      handle_request e raw
        = (⟨200, Body.muteOnly (muteToken (lastSeg (routeMuteP ++ rest)))⟩,
           [Cmd.setMute (muteToken (lastSeg (routeMuteP ++ rest)))])) := by
  constructor
  · intro pv hp hpi hok
    rw [handle_volP e raw rest hp, hpi]
    simp only [hok]
  · intro hp hm
    rw [handle_muteP e raw rest hp, hm (muteToken (lastSeg (routeMuteP ++ rest)))]

/-- Witness for C6 at the extra-segment path, accepted with value 50. -/
theorem C6_witness :
    handle_request envOkEmpty rawC6 = (⟨200, Body.volOnly 50⟩, [Cmd.setVol 50]) := by
  have h := (C6_lastSegment envOkEmpty rawC6 restC6).1 50 (by decide) (by decide) rfl
  exact h.trans (by decide)

/-- Claim C7: on every recognized route, every failure raised by the
adapter or by parameter parsing yields exactly one 500 response whose body
is the error payload carrying that failure's message, after exactly the
invocations issued so far, and the failed invocation is never reissued.
Enumerated per route: on the read-volume route, a failed volume invocation
(non-zero exit or timeout, which the environment records as an error), an
unparsable status text, and a failed mute invocation; on the read-mute
route, a failed mute invocation; on the set-volume route, a final segment
rejected by int() (before any invocation) and a failed set invocation; on
the set-mute route, a failed set invocation. In addition, for every
request whatsoever, the status is 500 exactly when the body is an error
payload, and the issued invocations are pairwise distinct, so no failed
invocation is ever retried. -/
theorem C7_errors (e : Env) (raw : Str) :
    ((handle_request e raw).1.code = 500
        ↔ ∃ er, (handle_request e raw).1.body = Body.errMsg er)
    ∧ ((handle_request e raw).2).Nodup
    ∧ (rstripSlash raw = routeVol →
        (∀ m, e.volText = Except.error m →
          handle_request e raw = (⟨500, Body.errMsg (Err.exec m)⟩, [Cmd.getVol]))
        ∧ (∀ out, e.volText = Except.ok out → searchVolume out = none →
          handle_request e raw = (⟨500, Body.errMsg (Err.parseVol out)⟩, [Cmd.getVol]))
        ∧ (∀ out v m, e.volText = Except.ok out → searchVolume out = some v →
            e.muteText = Except.error m →
          handle_request e raw = (⟨500, Body.errMsg (Err.exec m)⟩, [Cmd.getVol, Cmd.getMute])))
    ∧ (rstripSlash raw = routeMute →
        ∀ m, e.muteText = Except.error m →
          handle_request e raw = (⟨500, Body.errMsg (Err.exec m)⟩, [Cmd.getMute]))
    ∧ (∀ rest, rstripSlash raw = routeVolP ++ rest →
        (pyInt (lastSeg (routeVolP ++ rest)) = none →
          handle_request e raw
            = (⟨500, Body.errMsg (Err.badInt (lastSeg (routeVolP ++ rest)))⟩, []))
        ∧ (∀ pv m, pyInt (lastSeg (routeVolP ++ rest)) = some pv →
            e.setVolRes (clampPct pv) = Except.error m →
          handle_request e raw
            = (⟨500, Body.errMsg (Err.exec m)⟩, [Cmd.setVol (clampPct pv)])))
    ∧ (∀ rest, rstripSlash raw = routeMuteP ++ rest →
        ∀ m, e.setMuteRes (muteToken (lastSeg (routeMuteP ++ rest))) = Except.error m →
          handle_request e raw
            = (⟨500, Body.errMsg (Err.exec m)⟩,
               [Cmd.setMute (muteToken (lastSeg (routeMuteP ++ rest)))])) := by
  have hcases : ((handle_request e raw).1.code = 500
      ↔ ∃ er, (handle_request e raw).1.body = Body.errMsg er)
      ∧ ((handle_request e raw).2).Nodup := by
    by_cases h1 : rstripSlash raw = routeVol
    · rw [handle_vol_exact e raw h1]
      rcases hv : e.volText with m | out
      · simp only [hv]
        exact ⟨by simp, by decide⟩
      · rcases hs : searchVolume out with _ | v
        · simp only [hv, hs]
          exact ⟨by simp, by decide⟩
        · rcases hm : e.muteText with m2 | mo
          · simp only [hv, hs, hm]
            exact ⟨by simp, by decide⟩
          · simp only [hv, hs, hm]
            exact ⟨by simp, by decide⟩
    · by_cases h2 : rstripSlash raw = routeMute
      · rw [handle_mute_exact e raw h2]
        rcases hm : e.muteText with m | mo
        · simp only [hm]
          exact ⟨by simp, by decide⟩
        · simp only [hm]
          exact ⟨by simp, by decide⟩
      · by_cases h3 : startsWith routeVolP (rstripSlash raw) = true
        · obtain ⟨t, ht⟩ := (startsWith_iff routeVolP (rstripSlash raw)).mp h3
          rw [handle_volP e raw t ht.symm]
          rcases hpi : pyInt (lastSeg (routeVolP ++ t)) with _ | pct
          · simp only [hpi]
            exact ⟨by simp, by decide⟩
          · rcases hsv : e.setVolRes (clampPct pct) with m | u
            · simp only [hpi, hsv]
              exact ⟨by simp, by simp⟩
            · simp only [hpi, hsv]
              exact ⟨by simp, by simp⟩
        · by_cases h4 : startsWith routeMuteP (rstripSlash raw) = true
          · obtain ⟨t, ht⟩ := (startsWith_iff routeMuteP (rstripSlash raw)).mp h4
            rw [handle_muteP e raw t ht.symm]
            rcases hsm : e.setMuteRes (muteToken (lastSeg (routeMuteP ++ t))) with m | u
            · simp only [hsm]
              exact ⟨by simp, by simp⟩
            · simp only [hsm]
              exact ⟨by simp, by simp⟩
          · rw [handle_nf e raw h1 h2 (by simpa using h3) (by simpa using h4)]
            exact ⟨by simp, by decide⟩
  refine ⟨hcases.1, hcases.2, ?_, ?_, ?_, ?_⟩
  · intro hp
    refine ⟨?_, ?_, ?_⟩
    · intro m hv
      rw [handle_vol_exact e raw hp, hv]
    · intro out hv hs
      rw [handle_vol_exact e raw hp]
      simp only [hv, hs]
    · intro out v m hv hs hm
      rw [handle_vol_exact e raw hp]
      simp only [hv, hs, hm]
  · intro hp m hm
    rw [handle_mute_exact e raw hp]
    simp only [hm]
  · intro rest hp
    refine ⟨?_, ?_⟩
    · intro hbad
      rw [handle_volP e raw rest hp, hbad]
    · intro pv m hpi hsv
      rw [handle_volP e raw rest hp, hpi]
      simp only [hsv]
  · intro rest hp m hsm
    rw [handle_muteP e raw rest hp]
    simp only [hsm]

/-- Witness for C7: a timed-out volume query on the read-volume route
yields the single 500 error response carrying the timeout message after
one invocation, an unparsable status text on the same route yields the
single 500 parse-error response after one invocation, and in both cases
the 500-iff-error-body equivalence and the no-retry distinctness hold. -/
theorem C7_witness :
    handle_request envFail rawC7 = (⟨500, Body.errMsg (Err.exec msgTimeout)⟩, [Cmd.getVol])
    ∧ handle_request envParse rawC7 = (⟨500, Body.errMsg (Err.parseVol badOut)⟩, [Cmd.getVol])
    ∧ ((handle_request envFail rawC7).1.code = 500
        ↔ ∃ er, (handle_request envFail rawC7).1.body = Body.errMsg er)
    ∧ ((handle_request envFail rawC7).2).Nodup :=
  ⟨((C7_errors envFail rawC7).2.2.1 (by decide)).1 msgTimeout rfl,
   ((C7_errors envParse rawC7).2.2.1 (by decide)).2.1 badOut rfl (by decide),
   (C7_errors envFail rawC7).1,
   (C7_errors envFail rawC7).2.1⟩

/-- Claim C8: applying any volume in 0..100 and then querying returns the
same value: set_volume issues the set-volume invocation carrying the
clamped value (the identity on this range), a faithful mixer stores it,
and the volume parse recovers it from the resulting status text. -/
theorem C8_roundtrip (v : Int) (h0 : 0 ≤ v) (h1 : v ≤ 100) (s : Mixer) :
    searchVolume (volStatusText (mixerStep s (Cmd.setVol (clampPct v)))) = some v.toNat
    ∧ ((v.toNat : Int) = v) := by
  have hc : clampPct v = v := clampPct_id v h0 h1
  rw [hc]
  constructor
  · have hlt : v.toNat < 101 := by omega
    have hr := render_parse v.toNat hlt
    simpa [volStatusText, mixerStep] using hr
  · omega

/-- Witness for C8 at volume 50 from a silent mixer. -/
theorem C8_witness :
    searchVolume (volStatusText (mixerStep ⟨0, false⟩ (Cmd.setVol (clampPct 50)))) = some (Int.toNat 50)
    ∧ ((Int.toNat 50 : Int) = 50) :=
  C8_roundtrip 50 (by decide) (by decide) ⟨0, false⟩

/-- Claim C9: every path that, stripped of trailing slashes, is neither
exact route and extends neither parametrized segment receives the 404
not-found response, and no invocation is issued. -/
theorem C9_notfound (e : Env) (raw : Str)
    (h1 : rstripSlash raw ≠ routeVol) (h2 : rstripSlash raw ≠ routeMute)
    (h3 : startsWith routeVolP (rstripSlash raw) = false)
    (h4 : startsWith routeMuteP (rstripSlash raw) = false) :
    handle_request e raw = (⟨404, Body.notFound⟩, []) :=
  handle_nf e raw h1 h2 h3 h4

/-- Witness for C9 at an unknown path. -/
theorem C9_witness :
    handle_request envOkEmpty rawC9 = (⟨404, Body.notFound⟩, []) :=
  C9_notfound envOkEmpty rawC9 (by decide) (by decide) (by decide) (by decide)

/-- Claim C10: on the set-volume route, when the final segment is not a
valid integer the handler answers the 500 error response and issues no
invocation at all: the mixer is untouched on a parameter parse error. -/
theorem C10_badparam (e : Env) (raw rest : Str)
    (hp : rstripSlash raw = routeVolP ++ rest)
    (hbad : pyInt (lastSeg (routeVolP ++ rest)) = none) :
    handle_request e raw
      = (⟨500, Body.errMsg (Err.badInt (lastSeg (routeVolP ++ rest)))⟩, []) := by
  rw [handle_volP e raw rest hp, hbad]

/-- Witness for C10 at the non-numeric segment loud. -/
theorem C10_witness :
    handle_request envOkEmpty rawC10 = (⟨500, Body.errMsg (Err.badInt restC10)⟩, []) := by
  have h := C10_badparam envOkEmpty rawC10 restC10 (by decide) (by decide)
  exact h.trans (by decide)
